import Mathlib

set_option maxRecDepth 40000

/-!
Verification development for a two-script crypto demo repository:
`crypto_ingestion_demo.py` (exchange fetchers and a bulk inserter for a
QuestDB `crypto_prices` table) and `crypto_analyst.py` (a keyword intent
classifier, SQL templater, query executor and result formatter).

Modelling conventions:
* Python strings are Lean `String`; `s.lower()` is `pyLower`, the
  substring test `needle in hay` is `strIn`, and `sep.join(xs)` is `pyJoin`.
* Python floats are modelled as `ℚ`; where the scripts render a float into
  text (Python `str` or a `:,.2f` format) the rendering is abstracted as an
  explicit `fmtNum : ℚ → String` argument, because binary floating-point
  formatting has no shallow embedding.
* Network traffic is passed in explicitly: each fetcher and the query
  executor take a function describing the remote side's answer, with
  `Except.error e` standing for a raised `requests` exception whose message
  is `e`. The bulk inserter additionally returns the list of HTTP calls it
  issued, so that "exactly one call" is a provable statement.
-/

namespace CryptoDemo

/-- Model of Python `str.lower` (the scripts only feed it ASCII text). -/
def pyLower (s : String) : String := ⟨s.data.map Char.toLower⟩

/-- Model of Python `needle in hay` on strings: contiguous substring test. -/
def strIn (needle hay : String) : Bool := decide (needle.data <:+: hay.data)

/-- Model of Python `any(word in hay for word in words)`. -/
def anyIn (hay : String) (words : List String) : Bool :=
  words.any (fun word => strIn word hay)

/-- Model of Python `sep.join(parts)`. -/
def pyJoin (sep : String) : List String → String
  | [] => ""
  | [x] => x
  | x :: xs => x ++ (sep ++ pyJoin sep xs)

/-! ## Analyst component: `crypto_analyst.py` -/

/-- The `analysis` dictionary built by `_analyze_user_intent`. -/
structure Analysis where
  intent : String
  entities : List String
  time_range : String
  metrics : List String
  comparison : Bool
deriving Repr, DecidableEq

/-- Intent keywords of the first branch of `_analyze_user_intent`. -/
def priceWords : List String := ["price", "cost", "value"]

/-- Intent keywords of the second branch. -/
def volumeWords : List String := ["volume", "trading", "activity"]

/-- Intent keywords of the third branch. -/
def arbitrageWords : List String := ["arbitrage", "difference", "spread", "opportunity"]

/-- Intent keywords of the fourth branch. -/
def trendWords : List String := ["trend", "change", "movement", "performance"]

/-- Intent keywords of the fifth branch. -/
def comparisonWords : List String := ["compare", "vs", "versus", "between"]

/-- The `crypto_symbols` keyword list scanned for entity extraction. -/
def cryptoSymbols : List String :=
  ["btc", "bitcoin", "eth", "ethereum", "ada", "cardano", "sol", "solana"]

/-- The canonical symbol appended for one matched entity keyword
(the inner `if`/`elif` chain of the entity loop). -/
def canonOf (symbol : String) : List String :=
  if symbol = "btc" ∨ symbol = "bitcoin" then ["BTC"]
  else if symbol = "eth" ∨ symbol = "ethereum" then ["ETH"]
  else if symbol = "ada" ∨ symbol = "cardano" then ["ADA"]
  else if symbol = "sol" ∨ symbol = "solana" then ["SOL"]
  else []

/-- The entity-extraction loop over `crypto_symbols`. -/
def extractEntities (question_lower : String) : List String :=
  (cryptoSymbols.filter (fun symbol => strIn symbol question_lower)).flatMap canonOf

/-- `ClaudeCryptoAnalyst._analyze_user_intent`: lowercases the question, then
classifies intent first-match-wins over five keyword sets, extracts canonical
entities, and picks a time range first-match-wins over three keyword sets.
The intent and the `comparison` flag are set together, as in the source,
where only the fifth branch flips `comparison`. -/
def _analyze_user_intent (question : String) : Analysis :=
  let question_lower := pyLower question
  let intent_comparison : String × Bool :=
    if anyIn question_lower priceWords then ("price_analysis", false)
    else if anyIn question_lower volumeWords then ("volume_analysis", false)
    else if anyIn question_lower arbitrageWords then ("arbitrage_analysis", false)
    else if anyIn question_lower trendWords then ("trend_analysis", false)
    else if anyIn question_lower comparisonWords then ("comparison", true)
    else ("unknown", false)
  let time_range : String :=
    if anyIn question_lower ["hour", "last hour", "recent"] then "1_hour"
    else if anyIn question_lower ["day", "today", "24 hour"] then "1_day"
    else if anyIn question_lower ["week", "7 day"] then "1_week"
    else "latest"
  { intent := intent_comparison.1
    entities := extractEntities question_lower
    time_range := time_range
    metrics := []
    comparison := intent_comparison.2 }

/-- The `time_conditions` dictionary lookup with default `latest`
(`time_conditions.get(analysis["time_range"], time_conditions["latest"])`). -/
def time_conditions (time_range : String) : String :=
  if time_range = "latest" then "timestamp > dateadd('m', -15, now())"
  else if time_range = "1_hour" then "timestamp > dateadd('h', -1, now())"
  else if time_range = "1_day" then "timestamp > dateadd('d', -1, now())"
  else if time_range = "1_week" then "timestamp > dateadd('d', -7, now())"
  else "timestamp > dateadd('m', -15, now())"

/-- The `symbol_filter` string of `_generate_sql`. -/
def symbolFilter (entities : List String) : String :=
  if entities.isEmpty then ""
  else " AND symbol IN ('" ++ (pyJoin "', '" entities ++ "')")

/-- The `where_clause` built inside the price-comparison branch. -/
def whereClause (entities : List String) : String :=
  if entities.isEmpty then ""
  else "WHERE symbol IN ('" ++ (pyJoin "', '" entities ++ "')")

/-- The `symbol_where` built inside the arbitrage branch. -/
def symbolWhere (entities : List String) : String :=
  if entities.isEmpty then ""
  else "WHERE lp1.symbol IN ('" ++ (pyJoin "', '" entities ++ "')")

/-- The `LATEST ON` price-comparison f-string of `_generate_sql`
(whitespace exactly as in the triple-quoted source literal). -/
def priceComparisonTemplate (where_clause : String) : String :=
  "\n               SELECT\n                   symbol,\n                   exchange,\n                   price,\n                   timestamp\n               FROM crypto_prices\n               LATEST ON timestamp PARTITION BY symbol, exchange\n               " ++
  (where_clause ++ "\n               ORDER BY symbol, exchange\n               ")

/-- The plain price-analysis f-string of `_generate_sql`. -/
def priceTemplate (time_filter symbol_filter : String) : String :=
  "\n               SELECT\n                   symbol,\n                   exchange,\n                   price,\n                   timestamp\n               FROM crypto_prices\n               WHERE " ++
  (time_filter ++ (" " ++ (symbol_filter ++
    "\n               ORDER BY timestamp DESC\n               LIMIT 20\n               ")))

/-- The volume-analysis f-string of `_generate_sql`. -/
def volumeTemplate (time_filter symbol_filter : String) : String :=
  "\n           SELECT\n               symbol,\n               exchange,\n               sum(volume) as total_volume,\n               avg(volume) as avg_volume,\n               count(*) as data_points\n           FROM crypto_prices\n           WHERE " ++
  (time_filter ++ (" " ++ (symbol_filter ++
    "\n           GROUP BY symbol, exchange\n           ORDER BY total_volume DESC\n           ")))

/-- The arbitrage-analysis f-string of `_generate_sql`. -/
def arbitrageTemplate (symbol_where : String) : String :=
  "\n           WITH latest_by_exchange AS (\n               SELECT symbol, exchange, price\n               FROM crypto_prices\n               LATEST ON timestamp PARTITION BY symbol, exchange\n           )\n           SELECT\n               lp1.symbol,\n               lp1.exchange as exchange1,\n               lp1.price as price1,\n               lp2.exchange as exchange2,\n               lp2.price as price2,\n               abs(lp1.price - lp2.price) as price_diff,\n               (abs(lp1.price - lp2.price) / ((lp1.price + lp2.price) / 2) * 100) as arbitrage_pct\n           FROM latest_by_exchange lp1\n           JOIN latest_by_exchange lp2 ON lp1.symbol = lp2.symbol AND lp1.exchange < lp2.exchange\n           " ++
  (symbol_where ++
    "\n           AND abs(lp1.price - lp2.price) / ((lp1.price + lp2.price) / 2) * 100 > 0.1\n           ORDER BY arbitrage_pct DESC\n           ")

/-- The trend-analysis f-string of `_generate_sql`. -/
def trendTemplate (time_filter symbol_filter : String) : String :=
  "\n           SELECT\n               symbol,\n               exchange,\n               first(price) as earliest_price,\n               last(price) as latest_price,\n               (last(price) - first(price)) / first(price) * 100 as price_change_pct,\n               min(price) as min_price,\n               max(price) as max_price,\n               count(*) as data_points\n           FROM crypto_prices\n           WHERE " ++
  (time_filter ++ (" " ++ (symbol_filter ++
    "\n           GROUP BY symbol, exchange\n           ORDER BY price_change_pct DESC\n           ")))

/-- The default f-string of `_generate_sql` (the `LIMIT 10` recent-rows query). -/
def defaultTemplate (time_filter symbol_filter : String) : String :=
  "\n           SELECT symbol, exchange, price, volume, timestamp\n           FROM crypto_prices\n           WHERE " ++
  (time_filter ++ (" " ++ (symbol_filter ++
    "\n           ORDER BY timestamp DESC\n           LIMIT 10\n           ")))

/-- `ClaudeCryptoAnalyst._generate_sql`: dispatch on the classified intent
into one of the SQL templates, substituting the time filter and the
entity filters. -/
def _generate_sql (analysis : Analysis) : String :=
  let time_filter := time_conditions analysis.time_range
  let symbol_filter := symbolFilter analysis.entities
  if analysis.intent = "price_analysis" then
    if analysis.comparison then priceComparisonTemplate (whereClause analysis.entities)
    else priceTemplate time_filter symbol_filter
  else if analysis.intent = "volume_analysis" then volumeTemplate time_filter symbol_filter
  else if analysis.intent = "arbitrage_analysis" then arbitrageTemplate (symbolWhere analysis.entities)
  else if analysis.intent = "trend_analysis" then trendTemplate time_filter symbol_filter
  else defaultTemplate time_filter symbol_filter

/-- One cell of a QuestDB result row: SQL NULL, a number, or a string.
Python reads cells duck-typed; numeric aggregation in the formatter is only
ever reached on numeric cells, so non-numeric cells count as absent there. -/
inductive Cell
  | null
  | num (q : ℚ)
  | str (s : String)
deriving Repr, DecidableEq

/-- Numeric value of a cell, when it has one. -/
def Cell.numVal : Cell → Option ℚ
  | Cell.num q => some q
  | _ => none

/-- Python `row[idx] > 1.0` as used on `arbitrage_pct` cells. -/
def Cell.gtOne : Cell → Bool
  | Cell.num q => decide (q > 1)
  | _ => false

/-- Python `str(val)` inside an f-string, with numeric rendering abstracted. -/
def Cell.render (fmtNum : ℚ → String) : Cell → String
  | Cell.null => "None"
  | Cell.num q => fmtNum q
  | Cell.str s => s

/-- `row[i]` on a result row (in-range in every run the scripts make). -/
def cellAt (row : List Cell) (i : Nat) : Cell := row.getD i Cell.null

/-- The JSON body `/exec` answers with: an optional `error` entry, a
`dataset` of rows, and the `name`s of the `columns` entries. -/
structure QueryResult where
  error : Option String
  dataset : List (List Cell)
  columns : List String
deriving Repr, DecidableEq

/-- `ClaudeCryptoAnalyst._execute_questdb_query`: a raised request/HTTP
exception (the `Except.error` case of the remote side `net`) is caught and
turned into a dictionary holding only an `error` entry. -/
def _execute_questdb_query (net : String → Except String QueryResult)
    (sql_query : String) : QueryResult :=
  match net sql_query with
  | Except.ok r => r
  | Except.error e => { error := some e, dataset := [], columns := [] }

/-- `ClaudeCryptoAnalyst._format_human_response`: error and empty-dataset
early returns, then the header lines, the price / arbitrage / volume
insight sections, and the sample rows, joined with newlines. -/
def _format_human_response (fmtNum : ℚ → String) (results : QueryResult)
    (original_question : String) : String :=
  match results.error with
  | some e => "❌ I encountered an error while analyzing your crypto data: " ++ e
  | none =>
    if results.dataset.isEmpty then
      "📊 I couldn't find any matching crypto data for your query. The database might be empty or the time range might be too restrictive."
    else
      let data := results.dataset
      let columns := results.columns
      let priceSection : List String :=
        if columns.contains "price" then
          let i := columns.indexOf "price"
          match (data.map (fun row => cellAt row i)).filterMap Cell.numVal with
          | [] => []
          | p :: ps =>
            let avg_price := (p :: ps).foldl (fun a b => a + b) 0 / ((p :: ps).length : ℚ)
            let min_price := ps.foldl min p
            let max_price := ps.foldl max p
            ["\n💰 Price Analysis:",
             "   • Average Price: $" ++ fmtNum avg_price,
             "   • Price Range: $" ++ (fmtNum min_price ++ (" - $" ++ fmtNum max_price))]
        else []
      let arbSection : List String :=
        if columns.contains "arbitrage_pct" then
          let arb_idx := columns.indexOf "arbitrage_pct"
          let arb_opportunities := data.filter (fun row => (cellAt row arb_idx).gtOne)
          "\n🎯 Arbitrage Opportunities:" ::
            (if arb_opportunities.isEmpty then
              ["   • No significant arbitrage opportunities found (>1%)"]
            else
              ("   • Found " ++ (toString arb_opportunities.length ++ " opportunities > 1%")) ::
                (arb_opportunities.take 3).map (fun opp =>
                  "   • " ++
                    ((cellAt opp (columns.indexOf "symbol")).render fmtNum ++
                      (": " ++
                        ((cellAt opp arb_idx).render fmtNum ++
                          ("% between " ++
                            ((cellAt opp (columns.indexOf "exchange1")).render fmtNum ++
                              (" and " ++
                                (cellAt opp (columns.indexOf "exchange2")).render fmtNum))))))))
        else []
      let volumeSection : List String :=
        if columns.contains "total_volume" then
          let i := columns.indexOf "total_volume"
          let volumes := data.map (fun row => ((cellAt row i).numVal).getD 0)
          let total_volume := volumes.foldl (fun a b => a + b) 0
          ["\n📊 Volume Analysis:",
           "   • Total Volume: " ++ fmtNum total_volume,
           "   • Average per Exchange: " ++ fmtNum (total_volume / (volumes.length : ℚ))]
        else []
      let sampleSection : List String :=
        "\n📋 Sample Data:" ::
          (((data.take 3).enum.map (fun p =>
            "   " ++ (toString (p.1 + 1) ++ (". " ++
              pyJoin " | " ((columns.zip p.2).map (fun cv =>
                cv.1 ++ (": " ++ cv.2.render fmtNum))))))) ++
            (if data.length > 3 then
              ["   ... and " ++ (toString (data.length - 3) ++ " more records")]
            else []))
      pyJoin "\n"
        (("📈 Based on your question '" ++ (original_question ++ "', here's what I found:")) ::
          ("\n🔍 Found " ++ (toString data.length ++ (" records with " ++
            (toString columns.length ++ " data points each.")))) ::
          (priceSection ++ (arbSection ++ (volumeSection ++ sampleSection))))

/-- `ClaudeCryptoAnalyst.ask_claude`: classify, template, execute, format. -/
def ask_claude (fmtNum : ℚ → String) (net : String → Except String QueryResult)
    (user_question : String) : String :=
  let query_analysis := _analyze_user_intent user_question
  let sql_query := _generate_sql query_analysis
  let results := _execute_questdb_query net sql_query
  _format_human_response fmtNum results user_question

/-! ## Ingestion component: `crypto_ingestion_demo.py` -/

/-- One normalized `crypto_record` dictionary (the rows of `crypto_prices`). -/
structure PriceRecord where
  timestamp : String
  symbol : String
  exchange : String
  price : ℚ
  volume : ℚ
  bid : ℚ
  ask : ℚ
  spread : ℚ
  market_cap : ℚ
deriving Repr, DecidableEq

/-- Outcome of Binance's simple-price request for one symbol: a 451 block
(which makes the loop `break`), any other failure (HTTP error or exception,
which `continue`s), or a parsed price. -/
inductive BinanceSimpleResp
  | blocked
  | fetchErr (e : String)
  | priceOk (price : ℚ)

/-- The remote side seen by `fetch_binance_data`: the simple price endpoint,
and the inner 24hr-ticker/order-book try block, which either fails as a
whole (`none`, the bare-`except` fallback) or yields the bid list, ask list
and 24hr volume. -/
structure BinanceNet where
  simplePrice : String → BinanceSimpleResp
  depthData : String → Option (List ℚ × List ℚ × ℚ)

/-- `QuestDBCryptoIngestion.fetch_binance_data`: per-symbol fetch with a
`break` on a 451 block, bid/ask defaulting to 0 when the order book is
missing or empty, and `spread = ask - bid if ask > 0 and bid > 0 else 0`. -/
def fetch_binance_data (net : BinanceNet) (now : String) : List String → List PriceRecord
  | [] => []
  | symbol :: rest =>
    match net.simplePrice symbol with
    | BinanceSimpleResp.blocked => []
    | BinanceSimpleResp.fetchErr _ => fetch_binance_data net now rest
    | BinanceSimpleResp.priceOk price =>
      let bid : ℚ := match net.depthData symbol with
        | none => 0
        | some (bids, _, _) => bids.headD 0
      let ask : ℚ := match net.depthData symbol with
        | none => 0
        | some (_, asks, _) => asks.headD 0
      let volume : ℚ := match net.depthData symbol with
        | none => 0
        | some (_, _, vol) => vol
      { timestamp := now, symbol := symbol, exchange := "binance",
        price := price, volume := volume, bid := bid, ask := ask,
        spread := if ask > 0 ∧ bid > 0 then ask - bid else 0,
        market_cap := 0 } :: fetch_binance_data net now rest

/-- The fields `fetch_coinbase_data` reads off the Coinbase ticker JSON. -/
structure CoinbaseTicker where
  price : ℚ
  volume : ℚ
  bid : ℚ
  ask : ℚ

/-- One iteration of the `fetch_coinbase_data` loop: the record appended
for `symbol`, or `none` when the ticker request fails. -/
def coinbaseRecordFor (net : String → Except String CoinbaseTicker)
    (now symbol : String) : Option PriceRecord :=
  match net symbol with
  | Except.error _ => none
  | Except.ok d =>
    some { timestamp := now, symbol := symbol, exchange := "coinbase",
           price := d.price, volume := d.volume, bid := d.bid, ask := d.ask,
           spread := d.ask - d.bid, market_cap := 0 }

/-- `QuestDBCryptoIngestion.fetch_coinbase_data`: one ticker request per
symbol; a failure skips the symbol; `spread = ask - bid`. The loop appends
at most one record per symbol and carries no state across iterations, so it
is the `filterMap` of its body. -/
def fetch_coinbase_data (net : String → Except String CoinbaseTicker)
    (now : String) (symbols : List String) : List PriceRecord :=
  symbols.filterMap (coinbaseRecordFor net now)

/-- The `symbol_map` dictionary of `fetch_coingecko_data`. -/
def coingecko_symbol_map (symbol : String) : Option String :=
  if symbol = "BTC" then some "bitcoin"
  else if symbol = "ETH" then some "ethereum"
  else if symbol = "ADA" then some "cardano"
  else if symbol = "SOL" then some "solana"
  else none

/-- One coin's entry in CoinGecko's `/simple/price` answer. -/
structure GeckoCoin where
  usd : ℚ
  usd_24h_vol : Option ℚ
  usd_market_cap : Option ℚ

/-- One iteration of the record-building loop of `fetch_coingecko_data`:
the record appended for `symbol` out of the answer `data`, with a simulated
spread of 0.1% of the price (`spread = price * 0.001`,
`bid = price - spread/2`, `ask = price + spread/2`); `none` when the symbol
is unmapped or its coin id is missing from the answer. -/
def geckoRecordFor (data : List (String × GeckoCoin)) (now symbol : String) :
    Option PriceRecord :=
  match coingecko_symbol_map symbol with
  | none => none
  | some coin_id =>
    match data.lookup coin_id with
    | none => none
    | some coin =>
      let price := coin.usd
      let spread := price * (1 / 1000)
      some { timestamp := now, symbol := symbol, exchange := "coingecko",
             price := price, volume := coin.usd_24h_vol.getD 0,
             bid := price - spread / 2, ask := price + spread / 2,
             spread := spread, market_cap := coin.usd_market_cap.getD 0 }

/-- `QuestDBCryptoIngestion.fetch_coingecko_data`: maps symbols through
`symbol_map` (dropping unmapped ones), makes one request for all mapped
coin ids, and builds a record per mapped symbol present in the answer.
A failed request (or no mapped symbol at all) yields no records. -/
def fetch_coingecko_data (net : String → Except String (List (String × GeckoCoin)))
    (now : String) (symbols : List String) : List PriceRecord :=
  let coin_ids := symbols.filterMap coingecko_symbol_map
  if coin_ids.isEmpty then []
  else
    match net (pyJoin "," coin_ids) with
    | Except.error _ => []
    | Except.ok data => symbols.filterMap (geckoRecordFor data now)

/-- The `symbol_map` dictionary of `fetch_kraken_data`. -/
def kraken_symbol_map (symbol : String) : Option String :=
  if symbol = "BTC" then some "XXBTZUSD"
  else if symbol = "ETH" then some "XETHZUSD"
  else if symbol = "ADA" then some "ADAUSD"
  else if symbol = "SOL" then some "SOLUSD"
  else none

/-- One pair's ticker in Kraken's answer: close, volume, bid and ask arrays
(`c`, `v`, `b`, `a`). -/
structure KrakenTicker where
  c : List ℚ
  v : List ℚ
  b : List ℚ
  a : List ℚ

/-- Kraken's `/0/public/Ticker` answer: the `error` array and the `result`
dictionary keyed by pair name. -/
structure KrakenResp where
  err : List String
  result : List (String × KrakenTicker)

/-- One iteration of the `fetch_kraken_data` loop: the record appended for
`symbol`, or `none` when the symbol is outside `symbol_map` (`continue`),
the request fails, the API reports an `error` entry, the pair is missing
from `result`, or a ticker array is too short (an `IndexError` caught by
the bare handler). -/
def krakenRecordFor (net : String → Except String KrakenResp)
    (now symbol : String) : Option PriceRecord :=
  match kraken_symbol_map symbol with
  | none => none
  | some kraken_symbol =>
    match net kraken_symbol with
    | Except.error _ => none
    | Except.ok data =>
      if data.err.isEmpty = false then none
      else
        match data.result.lookup kraken_symbol with
        | none => none
        | some ticker =>
          match ticker.c[0]?, ticker.v[1]?, ticker.b[0]?, ticker.a[0]? with
          | some price, some volume, some bid, some ask =>
            some { timestamp := now, symbol := symbol, exchange := "kraken",
                   price := price, volume := volume, bid := bid, ask := ask,
                   spread := ask - bid, market_cap := 0 }
          | _, _, _, _ => none

/-- `QuestDBCryptoIngestion.fetch_kraken_data`: one ticker request per
mapped symbol; every failure path `continue`s; `spread = ask - bid`. The
loop appends at most one record per symbol and carries no state across
iterations, so it is the `filterMap` of its body. -/
def fetch_kraken_data (net : String → Except String KrakenResp)
    (now : String) (symbols : List String) : List PriceRecord :=
  symbols.filterMap (krakenRecordFor net now)

/-- The `values` f-string for one record of the bulk insert. -/
def recordValues (fmtNum : ℚ → String) (record : PriceRecord) : String :=
  "('" ++ record.timestamp ++ "','" ++ record.symbol ++ "','" ++ record.exchange ++
    "'," ++ fmtNum record.price ++ "," ++ fmtNum record.volume ++
    "," ++ fmtNum record.bid ++ "," ++ fmtNum record.ask ++
    "," ++ fmtNum record.spread ++ "," ++ fmtNum record.market_cap ++ ")"

/-- The `insert_sql` bulk statement of `ingest_crypto_data`. -/
def insertSql (fmtNum : ℚ → String) (crypto_data : List PriceRecord) : String :=
  "\n       INSERT INTO crypto_prices\n       (timestamp, symbol, exchange, price, volume, bid, ask, spread, market_cap)\n       VALUES " ++
  (pyJoin "," (crypto_data.map (recordValues fmtNum)) ++ "\n       ")

/-- `QuestDBCryptoIngestion.ingest_crypto_data`. Returns the boolean result
together with the list of HTTP calls issued (each entry one `/exec` query):
an empty record list returns `False` having made no call; otherwise one
call carrying the single bulk `INSERT` is made and its success decides the
result. -/
def ingest_crypto_data (fmtNum : ℚ → String) (net : String → Except String Unit)
    (crypto_data : List PriceRecord) : Bool × List String :=
  if crypto_data.isEmpty then (false, [])
  else
    let insert_sql := insertSql fmtNum crypto_data
    match net insert_sql with
    | Except.ok _ => (true, [insert_sql])
    | Except.error _ => (false, [insert_sql])

/-! ## Helper lemmas -/

lemma strIn_iff {needle hay : String} :
    strIn needle hay = true ↔ needle.data <:+: hay.data := by
  simp [strIn]

lemma infixApL (x : List Char) {l y : List Char} (h : l <:+: y) : l <:+: x ++ y := by
  obtain ⟨s, t, rfl⟩ := h
  exact ⟨x ++ s, t, by simp⟩

lemma infixApR (y : List Char) {l x : List Char} (h : l <:+: x) : l <:+: x ++ y := by
  obtain ⟨s, t, rfl⟩ := h
  exact ⟨s, t ++ y, by simp⟩

lemma pyJoin_mem_infix (sep : String) (l : List String) (x : String) (h : x ∈ l) :
    x.data <:+: (pyJoin sep l).data := by
  induction l with
  | nil => simp at h
  | cons a t ih =>
    cases t with
    | nil =>
      rw [List.mem_singleton] at h
      subst h
      exact ⟨[], [], by simp [pyJoin]⟩
    | cons b t2 =>
      rcases List.mem_cons.mp h with h1 | h2
      · subst h1
        show x.data <:+: (x ++ (sep ++ pyJoin sep (b :: t2))).data
        rw [String.data_append]
        exact ⟨[], (sep ++ pyJoin sep (b :: t2)).data, by simp⟩
      · show x.data <:+: (a ++ (sep ++ pyJoin sep (b :: t2))).data
        rw [String.data_append, String.data_append]
        exact infixApL _ (infixApL _ (ih h2))

lemma listApNe {A B x y : List Char} (i : Nat) (c d : Char)
    (hA : A[i]? = some c) (hB : B[i]? = some d) (hcd : c ≠ d) :
    A ++ x ≠ B ++ y := by
  intro h
  have hiA : i < A.length := by
    by_contra hlt
    simp [List.getElem?_eq_none (Nat.le_of_not_lt hlt)] at hA
  have hiB : i < B.length := by
    by_contra hlt
    simp [List.getElem?_eq_none (Nat.le_of_not_lt hlt)] at hB
  have h1 : (A ++ x)[i]? = some c := by rw [List.getElem?_append_left hiA]; exact hA
  have h2 : (B ++ y)[i]? = some d := by rw [List.getElem?_append_left hiB]; exact hB
  rw [h, h2] at h1
  exact hcd (by injection h1 with h3; exact h3.symm)

lemma strApNe {A B x y : String} (i : Nat) (c d : Char)
    (hA : A.data[i]? = some c) (hB : B.data[i]? = some d) (hcd : c ≠ d) :
    A ++ x ≠ B ++ y := by
  intro h
  apply listApNe i c d hA hB hcd
  have h2 := congrArg String.data h
  rwa [String.data_append, String.data_append] at h2

/-! ## C2: empty bulk insert fails without a call, non-empty makes one call -/

/-- C2: `ingest_crypto_data` on the empty record list returns `False` and
issues no network call; on every non-empty list its call log is exactly one
entry, the single bulk `INSERT` statement. -/
theorem C2_bulk_insert (fmtNum : ℚ → String) (net : String → Except String Unit)
    (crypto_data : List PriceRecord) (hne : crypto_data ≠ []) :
    ingest_crypto_data fmtNum net [] = (false, []) ∧
    (ingest_crypto_data fmtNum net crypto_data).2 = [insertSql fmtNum crypto_data] := by
  constructor
  · rfl
  · rw [ingest_crypto_data, if_neg (by simpa using hne)]
    cases hc : net (insertSql fmtNum crypto_data) <;> simp [hc]

/-- A record used to instantiate hypotheses of the ingestion theorems. -/
def sampleRecord : PriceRecord :=
  { timestamp := "2024-01-01T00:00:00Z", symbol := "BTC", exchange := "coinbase",
    price := 10, volume := 1, bid := 4, ask := 5, spread := (5 : ℚ) - 4, market_cap := 0 }

/-- Witness for C2 at a concrete record list and network. -/
theorem C2_bulk_insert_witness :
    ingest_crypto_data (fun _ => "0") (fun _ => Except.ok ()) [] = (false, []) ∧
    (ingest_crypto_data (fun _ => "0") (fun _ => Except.ok ()) [sampleRecord]).2 =
      [insertSql (fun _ => "0") [sampleRecord]] :=
  C2_bulk_insert (fun _ => "0") (fun _ => Except.ok ()) [sampleRecord] (by simp)

/-! ## C7: query failures become error strings, nothing propagates -/

/-- C7: a raised exception during query execution is caught at the call
site: `_execute_questdb_query` answers a dictionary carrying an `error`
entry instead of raising, `_format_human_response` on any result carrying
an `error` entry answers the human-readable error-message string, and
`ask_claude` on a failing network answers that string (it is a total
function, so nothing propagates to its caller). -/
theorem C7_error_handling (net : String → Except String QueryResult)
    (fmtNum : ℚ → String) (results : QueryResult) (sql_query question e : String)
    (hnet : net sql_query = Except.error e) (hres : results.error = some e)
    (hask : net (_generate_sql (_analyze_user_intent question)) = Except.error e) :
    _execute_questdb_query net sql_query =
      { error := some e, dataset := [], columns := [] } ∧
    _format_human_response fmtNum results question =
      "❌ I encountered an error while analyzing your crypto data: " ++ e ∧
    ask_claude fmtNum net question =
      "❌ I encountered an error while analyzing your crypto data: " ++ e := by
  refine ⟨?_, ?_, ?_⟩
  · rw [_execute_questdb_query, hnet]
  · rw [_format_human_response, hres]
  · rw [ask_claude, _execute_questdb_query, hask, _format_human_response]

/-- Witness for C7 at a concrete failing network. -/
theorem C7_error_handling_witness :
    _execute_questdb_query (fun _ => Except.error "boom") "SELECT 1" =
      { error := some "boom", dataset := [], columns := [] } ∧
    _format_human_response (fun _ => "")
        { error := some "boom", dataset := [], columns := [] } "hi" =
      "❌ I encountered an error while analyzing your crypto data: " ++ "boom" ∧
    ask_claude (fun _ => "") (fun _ => Except.error "boom") "hi" =
      "❌ I encountered an error while analyzing your crypto data: " ++ "boom" :=
  C7_error_handling (fun _ => Except.error "boom") (fun _ => "")
    { error := some "boom", dataset := [], columns := [] } "SELECT 1" "hi" "boom"
    rfl rfl rfl

/-! ## C10: a question containing "24 hour" is classified as 1_hour -/

/-- C10: any question whose lowercased text contains the phrase "24 hour"
gets time range `1_hour`, because the substring "hour" matches the hour
branch, which is tested before the day branch; the "24 hour" entry of the
day keyword list can never decide. -/
theorem C10_24_hour (question : String)
    (h : strIn "24 hour" (pyLower question) = true) :
    (_analyze_user_intent question).time_range = "1_hour" := by
  have hh : strIn "hour" (pyLower question) = true := by
    rw [strIn_iff] at h ⊢
    exact List.IsInfix.trans (by decide) h
  rw [_analyze_user_intent]
  simp only [anyIn, List.any_cons, hh, Bool.true_or, if_true]

/-- Witness for C10 at a concrete question. -/
theorem C10_24_hour_witness :
    (_analyze_user_intent "show the 24 hour volume").time_range = "1_hour" :=
  C10_24_hour "show the 24 hour volume" (by decide)

/-! ## C3: the intent classifier is first-match-wins over five keyword sets -/

/-- C3: `_analyze_user_intent` always yields one of the six intents, and the
intent is chosen first-match-wins in the fixed order price, volume,
arbitrage, trend, comparison over the lowercased text, with `unknown` when
no keyword set matches. -/
theorem C3_intent_first_match (question : String) :
    (_analyze_user_intent question).intent ∈
      ["price_analysis", "volume_analysis", "arbitrage_analysis",
       "trend_analysis", "comparison", "unknown"] ∧
    (anyIn (pyLower question) priceWords = true →
      (_analyze_user_intent question).intent = "price_analysis") ∧
    (anyIn (pyLower question) priceWords = false →
      anyIn (pyLower question) volumeWords = true →
      (_analyze_user_intent question).intent = "volume_analysis") ∧
    (anyIn (pyLower question) priceWords = false →
      anyIn (pyLower question) volumeWords = false →
      anyIn (pyLower question) arbitrageWords = true →
      (_analyze_user_intent question).intent = "arbitrage_analysis") ∧
    (anyIn (pyLower question) priceWords = false →
      anyIn (pyLower question) volumeWords = false →
      anyIn (pyLower question) arbitrageWords = false →
      anyIn (pyLower question) trendWords = true →
      (_analyze_user_intent question).intent = "trend_analysis") ∧
    (anyIn (pyLower question) priceWords = false →
      anyIn (pyLower question) volumeWords = false →
      anyIn (pyLower question) arbitrageWords = false →
      anyIn (pyLower question) trendWords = false →
      anyIn (pyLower question) comparisonWords = true →
      (_analyze_user_intent question).intent = "comparison") ∧
    (anyIn (pyLower question) priceWords = false →
      anyIn (pyLower question) volumeWords = false →
      anyIn (pyLower question) arbitrageWords = false →
      anyIn (pyLower question) trendWords = false →
      anyIn (pyLower question) comparisonWords = false →
      (_analyze_user_intent question).intent = "unknown") := by
  by_cases h1 : anyIn (pyLower question) priceWords <;>
    by_cases h2 : anyIn (pyLower question) volumeWords <;>
      by_cases h3 : anyIn (pyLower question) arbitrageWords <;>
        by_cases h4 : anyIn (pyLower question) trendWords <;>
          by_cases h5 : anyIn (pyLower question) comparisonWords <;>
            simp [_analyze_user_intent, h1, h2, h3, h4, h5]

/-- Witness for C3 at a concrete question matching a price keyword. -/
theorem C3_intent_first_match_witness :
    (_analyze_user_intent "What is the price of BTC?").intent = "price_analysis" :=
  (C3_intent_first_match "What is the price of BTC?").2.1 (by decide)

/-! ## C4: keyword-free text falls back to the default template -/

/-- C4: a question containing none of the recognized intent keywords is
classified `unknown`, and `_generate_sql` on it returns the default
`LIMIT 10` recent-rows template, with only the time-window clause and the
optional symbol filter substituted. -/
theorem C4_unknown_default (question : String)
    (h1 : anyIn (pyLower question) priceWords = false)
    (h2 : anyIn (pyLower question) volumeWords = false)
    (h3 : anyIn (pyLower question) arbitrageWords = false)
    (h4 : anyIn (pyLower question) trendWords = false)
    (h5 : anyIn (pyLower question) comparisonWords = false) :
    (_analyze_user_intent question).intent = "unknown" ∧
    _generate_sql (_analyze_user_intent question) =
      defaultTemplate (time_conditions (_analyze_user_intent question).time_range)
        (symbolFilter (_analyze_user_intent question).entities) := by
  have hint : (_analyze_user_intent question).intent = "unknown" := by
    simp [_analyze_user_intent, h1, h2, h3, h4, h5]
  exact ⟨hint, by simp [_generate_sql, hint]⟩

/-- Witness for C4 at a concrete keyword-free question. -/
theorem C4_unknown_default_witness :
    (_analyze_user_intent "hello world").intent = "unknown" ∧
    _generate_sql (_analyze_user_intent "hello world") =
      defaultTemplate (time_conditions (_analyze_user_intent "hello world").time_range)
        (symbolFilter (_analyze_user_intent "hello world").entities) :=
  C4_unknown_default "hello world" (by decide) (by decide) (by decide) (by decide) (by decide)

/-! ## C5: the arbitrage template always carries the 0.1% filter -/

/-- C5: for every classification with the arbitrage intent, the query text
self-joins the latest-per-symbol/exchange snapshots and contains the filter
condition excluding pairs at or below the 0.1% relative price difference. -/
theorem C5_arbitrage_filter (analysis : Analysis)
    (h : analysis.intent = "arbitrage_analysis") :
    strIn "abs(lp1.price - lp2.price) / ((lp1.price + lp2.price) / 2) * 100 > 0.1"
      (_generate_sql analysis) = true ∧
    strIn "JOIN latest_by_exchange lp2 ON lp1.symbol = lp2.symbol AND lp1.exchange < lp2.exchange"
      (_generate_sql analysis) = true ∧
    strIn "LATEST ON timestamp PARTITION BY symbol, exchange"
      (_generate_sql analysis) = true := by
  have hg : _generate_sql analysis = arbitrageTemplate (symbolWhere analysis.entities) := by
    simp [_generate_sql, h]
  rw [hg, arbitrageTemplate]
  refine ⟨?_, ?_, ?_⟩ <;> rw [strIn_iff, String.data_append, String.data_append]
  · exact infixApL _ (infixApL _ (by decide))
  · exact infixApR _ (by decide)
  · exact infixApR _ (by decide)

/-- Witness for C5 at a concrete arbitrage classification. -/
theorem C5_arbitrage_filter_witness :
    strIn "abs(lp1.price - lp2.price) / ((lp1.price + lp2.price) / 2) * 100 > 0.1"
      (_generate_sql { intent := "arbitrage_analysis", entities := [],
                       time_range := "latest", metrics := [], comparison := false }) = true ∧
    strIn "JOIN latest_by_exchange lp2 ON lp1.symbol = lp2.symbol AND lp1.exchange < lp2.exchange"
      (_generate_sql { intent := "arbitrage_analysis", entities := [],
                       time_range := "latest", metrics := [], comparison := false }) = true ∧
    strIn "LATEST ON timestamp PARTITION BY symbol, exchange"
      (_generate_sql { intent := "arbitrage_analysis", entities := [],
                       time_range := "latest", metrics := [], comparison := false }) = true :=
  C5_arbitrage_filter
    { intent := "arbitrage_analysis", entities := [],
      time_range := "latest", metrics := [], comparison := false } rfl

/-! ## C9: the price-comparison (LATEST ON) template is unreachable -/

/-- Case analysis on the intent/comparison pair produced by the classifier:
only the comparison branch sets the flag. -/
lemma analyze_intent_cases (question : String) :
    ((_analyze_user_intent question).intent = "price_analysis" ∧
      (_analyze_user_intent question).comparison = false) ∨
    ((_analyze_user_intent question).intent = "volume_analysis" ∧
      (_analyze_user_intent question).comparison = false) ∨
    ((_analyze_user_intent question).intent = "arbitrage_analysis" ∧
      (_analyze_user_intent question).comparison = false) ∨
    ((_analyze_user_intent question).intent = "trend_analysis" ∧
      (_analyze_user_intent question).comparison = false) ∨
    ((_analyze_user_intent question).intent = "comparison" ∧
      (_analyze_user_intent question).comparison = true) ∨
    ((_analyze_user_intent question).intent = "unknown" ∧
      (_analyze_user_intent question).comparison = false) := by
  by_cases h1 : anyIn (pyLower question) priceWords <;>
    by_cases h2 : anyIn (pyLower question) volumeWords <;>
      by_cases h3 : anyIn (pyLower question) arbitrageWords <;>
        by_cases h4 : anyIn (pyLower question) trendWords <;>
          by_cases h5 : anyIn (pyLower question) comparisonWords <;>
            simp [_analyze_user_intent, h1, h2, h3, h4, h5]

/-- C9: a price-intent classification always has the comparison flag off,
a comparison-intent classification is routed to the default template, and
the composition of classifier and templater never returns the
price-comparison (`LATEST ON`) template, whatever its where-clause: the
comparison branch of the price template is unreachable. -/
theorem C9_comparison_branch_unreachable (question : String) :
    ((_analyze_user_intent question).intent = "price_analysis" →
      (_analyze_user_intent question).comparison = false) ∧
    ((_analyze_user_intent question).intent = "comparison" →
      _generate_sql (_analyze_user_intent question) =
        defaultTemplate (time_conditions (_analyze_user_intent question).time_range)
          (symbolFilter (_analyze_user_intent question).entities)) ∧
    (∀ where_clause : String,
      _generate_sql (_analyze_user_intent question) ≠
        priceComparisonTemplate where_clause) := by
  rcases analyze_intent_cases question with ⟨hi, hc⟩ | ⟨hi, hc⟩ | ⟨hi, hc⟩ | ⟨hi, hc⟩ |
    ⟨hi, hc⟩ | ⟨hi, hc⟩
  · refine ⟨fun _ => hc, fun h => absurd (hi.symm.trans h) (by decide), fun wc => ?_⟩
    have hg : _generate_sql (_analyze_user_intent question) =
        priceTemplate (time_conditions (_analyze_user_intent question).time_range)
          (symbolFilter (_analyze_user_intent question).entities) := by
      simp [_generate_sql, hi, hc]
    rw [hg, priceTemplate, priceComparisonTemplate]
    exact strApNe 183 'W' 'L' (by decide) (by decide) (by decide)
  · refine ⟨fun h => absurd (hi.symm.trans h) (by decide),
      fun h => absurd (hi.symm.trans h) (by decide), fun wc => ?_⟩
    have hg : _generate_sql (_analyze_user_intent question) =
        volumeTemplate (time_conditions (_analyze_user_intent question).time_range)
          (symbolFilter (_analyze_user_intent question).entities) := by
      simp [_generate_sql, hi]
    rw [hg, volumeTemplate, priceComparisonTemplate]
    exact strApNe 12 'S' ' ' (by decide) (by decide) (by decide)
  · refine ⟨fun h => absurd (hi.symm.trans h) (by decide),
      fun h => absurd (hi.symm.trans h) (by decide), fun wc => ?_⟩
    have hg : _generate_sql (_analyze_user_intent question) =
        arbitrageTemplate (symbolWhere (_analyze_user_intent question).entities) := by
      simp [_generate_sql, hi]
    rw [hg, arbitrageTemplate, priceComparisonTemplate]
    exact strApNe 12 'W' ' ' (by decide) (by decide) (by decide)
  · refine ⟨fun h => absurd (hi.symm.trans h) (by decide),
      fun h => absurd (hi.symm.trans h) (by decide), fun wc => ?_⟩
    have hg : _generate_sql (_analyze_user_intent question) =
        trendTemplate (time_conditions (_analyze_user_intent question).time_range)
          (symbolFilter (_analyze_user_intent question).entities) := by
      simp [_generate_sql, hi]
    rw [hg, trendTemplate, priceComparisonTemplate]
    exact strApNe 12 'S' ' ' (by decide) (by decide) (by decide)
  · have hg : _generate_sql (_analyze_user_intent question) =
        defaultTemplate (time_conditions (_analyze_user_intent question).time_range)
          (symbolFilter (_analyze_user_intent question).entities) := by
      simp [_generate_sql, hi]
    refine ⟨fun h => absurd (hi.symm.trans h) (by decide), fun _ => hg, fun wc => ?_⟩
    rw [hg, defaultTemplate, priceComparisonTemplate]
    exact strApNe 12 'S' ' ' (by decide) (by decide) (by decide)
  · have hg : _generate_sql (_analyze_user_intent question) =
        defaultTemplate (time_conditions (_analyze_user_intent question).time_range)
          (symbolFilter (_analyze_user_intent question).entities) := by
      simp [_generate_sql, hi]
    refine ⟨fun h => absurd (hi.symm.trans h) (by decide),
      fun h => absurd (hi.symm.trans h) (by decide), fun wc => ?_⟩
    rw [hg, defaultTemplate, priceComparisonTemplate]
    exact strApNe 12 'S' ' ' (by decide) (by decide) (by decide)

/-- Witness for C9 at a concrete comparison-intent question. -/
theorem C9_comparison_branch_unreachable_witness :
    _generate_sql (_analyze_user_intent "compare btc vs eth") =
      defaultTemplate
        (time_conditions (_analyze_user_intent "compare btc vs eth").time_range)
        (symbolFilter (_analyze_user_intent "compare btc vs eth").entities) ∧
    _generate_sql (_analyze_user_intent "compare btc vs eth") ≠
      priceComparisonTemplate "" :=
  ⟨(C9_comparison_branch_unreachable "compare btc vs eth").2.1 (by decide),
    (C9_comparison_branch_unreachable "compare btc vs eth").2.2 ""⟩

/-! ## C6: the formatter's record/column count header line -/

/-- C6 as stated is false: on a result carrying an `error` entry the
formatter returns only the error message, and on an empty dataset only the
no-data message; neither contains a record-count / column-count header
line (not even the word "Found"). -/
theorem C6_header_counterexample :
    _format_human_response (fun _ => "")
        { error := some "boom", dataset := [], columns := [] } "q" =
      "❌ I encountered an error while analyzing your crypto data: boom" ∧
    strIn "Found 0 records with 0 data points each."
      (_format_human_response (fun _ => "")
        { error := some "boom", dataset := [], columns := [] } "q") = false ∧
    strIn "Found"
      (_format_human_response (fun _ => "")
        { error := some "boom", dataset := [], columns := [] } "q") = false ∧
    strIn "Found"
      (_format_human_response (fun _ => "")
        { error := none, dataset := [], columns := [] } "q") = false := by
  refine ⟨rfl, by decide, by decide, by decide⟩

/-- C6 amended: for every query result that carries no `error` entry and
has a non-empty dataset, the formatter's output contains the header line
stating the record count and the column count. -/
theorem C6_header_amended (fmtNum : ℚ → String) (results : QueryResult)
    (original_question : String) (herr : results.error = none)
    (hne : results.dataset ≠ []) :
    strIn ("\n🔍 Found " ++ (toString results.dataset.length ++ (" records with " ++
        (toString results.columns.length ++ " data points each."))))
      (_format_human_response fmtNum results original_question) = true := by
  have he : results.dataset.isEmpty = false := by simpa using hne
  rw [strIn_iff]
  simp only [_format_human_response, herr, he, Bool.false_eq_true, if_false]
  apply pyJoin_mem_infix
  exact List.mem_cons_of_mem _ (List.mem_cons_self _ _)

/-- Witness for the amended C6 at a concrete one-row result. -/
theorem C6_header_amended_witness :
    strIn ("\n🔍 Found " ++
        (toString (QueryResult.mk none [[Cell.str "x"]] ["foo"]).dataset.length ++
          (" records with " ++
            (toString (QueryResult.mk none [[Cell.str "x"]] ["foo"]).columns.length ++
              " data points each."))))
      (_format_human_response (fun _ => "")
        (QueryResult.mk none [[Cell.str "x"]] ["foo"]) "q") = true :=
  C6_header_amended (fun _ => "") (QueryResult.mk none [[Cell.str "x"]] ["foo"]) "q"
    rfl (by simp)

/-! ## Per-symbol fetcher lemmas -/

lemma kraken_map_mem {s : String} (h : (kraken_symbol_map s).isSome = true) :
    s ∈ ["BTC", "ETH", "ADA", "SOL"] := by
  rw [kraken_symbol_map] at h
  split_ifs at h with h1 h2 h3 h4
  · simp [h1]
  · simp [h2]
  · simp [h3]
  · simp [h4]
  · simp at h

lemma gecko_map_mem {s : String} (h : (coingecko_symbol_map s).isSome = true) :
    s ∈ ["BTC", "ETH", "ADA", "SOL"] := by
  rw [coingecko_symbol_map] at h
  split_ifs at h with h1 h2 h3 h4
  · simp [h1]
  · simp [h2]
  · simp [h3]
  · simp [h4]
  · simp at h

lemma coinbaseRecordFor_spec {net : String → Except String CoinbaseTicker}
    {now a : String} {r : PriceRecord} (hf : coinbaseRecordFor net now a = some r) :
    r.spread = r.ask - r.bid := by
  rcases hnet : net a with e | d
  · simp only [coinbaseRecordFor, hnet] at hf
    exact absurd hf (by simp)
  · simp only [coinbaseRecordFor, hnet, Option.some.injEq] at hf
    subst hf
    rfl

lemma krakenRecordFor_spec {net : String → Except String KrakenResp}
    {now a : String} {r : PriceRecord} (hf : krakenRecordFor net now a = some r) :
    r.symbol = a ∧ (kraken_symbol_map a).isSome = true ∧ r.spread = r.ask - r.bid := by
  rcases hm : kraken_symbol_map a with _ | k
  · simp only [krakenRecordFor, hm] at hf
    exact absurd hf (by simp)
  · simp only [krakenRecordFor, hm] at hf
    rcases hnet : net k with e | data
    · simp only [hnet] at hf
      exact absurd hf (by simp)
    · simp only [hnet] at hf
      by_cases hif : data.err.isEmpty = false
      · rw [if_pos hif] at hf
        exact absurd hf (by simp)
      · rw [if_neg hif] at hf
        rcases hl : data.result.lookup k with _ | ticker
        · simp only [hl] at hf
          exact absurd hf (by simp)
        · simp only [hl] at hf
          rcases h1 : ticker.c[0]? with _ | price <;>
            rcases h2 : ticker.v[1]? with _ | volume <;>
              rcases h3 : ticker.b[0]? with _ | bid <;>
                rcases h4 : ticker.a[0]? with _ | ask <;>
                  simp only [h1, h2, h3, h4, Option.some.injEq] at hf <;>
                    first
                      | exact absurd hf (by simp)
                      | (subst hf; exact ⟨rfl, by simp [hm], rfl⟩)

lemma geckoRecordFor_spec {data : List (String × GeckoCoin)} {now a : String}
    {r : PriceRecord} (hf : geckoRecordFor data now a = some r) :
    r.symbol = a ∧ (coingecko_symbol_map a).isSome = true ∧
      r.spread = r.price * (1 / 1000) ∧ r.spread = r.ask - r.bid := by
  rcases hm : coingecko_symbol_map a with _ | cid
  · simp only [geckoRecordFor, hm] at hf
    exact absurd hf (by simp)
  · simp only [geckoRecordFor, hm] at hf
    rcases hl : data.lookup cid with _ | coin
    · simp only [hl] at hf
      exact absurd hf (by simp)
    · simp only [hl, Option.some.injEq] at hf
      subst hf
      refine ⟨rfl, by simp [hm], rfl, ?_⟩
      show coin.usd * (1 / 1000) =
        (coin.usd + coin.usd * (1 / 1000) / 2) - (coin.usd - coin.usd * (1 / 1000) / 2)
      ring

lemma krakenRecordFor_none {net : String → Except String KrakenResp} {now a : String}
    (hm : kraken_symbol_map a = none) : krakenRecordFor net now a = none := by
  simp [krakenRecordFor, hm]

lemma geckoRecordFor_none {data : List (String × GeckoCoin)} {now a : String}
    (hm : coingecko_symbol_map a = none) : geckoRecordFor data now a = none := by
  simp [geckoRecordFor, hm]

lemma filterMap_filter_isSome {α β γ : Type} (m : α → Option γ) (f : α → Option β)
    (hf : ∀ a, m a = none → f a = none) (l : List α) :
    l.filterMap f = (l.filter (fun a => (m a).isSome)).filterMap f := by
  induction l with
  | nil => rfl
  | cons a t ih =>
    rcases hm : m a with _ | c
    · rw [List.filter_cons, if_neg (by simp [hm]), List.filterMap_cons, hf a hm, ih]
    · rw [List.filter_cons, if_pos (by simp [hm]), List.filterMap_cons,
        List.filterMap_cons, ih]

/-! ## C1: spread fields of fetched records -/

/-- A Binance network answer whose order-book (bid/ask) lookup fails. -/
def binanceFailedDepthNet : BinanceNet :=
  { simplePrice := fun _ => BinanceSimpleResp.priceOk 100
    depthData := fun _ => none }

/-- C1 as stated is false for Binance: when the bid/ask lookup fails, the
record's spread is 0 and its price 100, and 0 is not 0.1% of 100. -/
theorem C1_spread_counterexample :
    (fetch_binance_data binanceFailedDepthNet "2024-01-01T00:00:00Z" ["BTC"]).map
        PriceRecord.spread = [0] ∧
    (fetch_binance_data binanceFailedDepthNet "2024-01-01T00:00:00Z" ["BTC"]).map
        PriceRecord.price = [100] ∧
    (0 : ℚ) ≠ 100 * (1 / 1000) := by
  refine ⟨?_, ?_, by norm_num⟩
  · norm_num [fetch_binance_data, binanceFailedDepthNet]
  · norm_num [fetch_binance_data, binanceFailedDepthNet]

/-- C1 amended: Coinbase and Kraken records have `spread = ask - bid`;
CoinGecko records have `spread = price * 0.001` (which also equals
`ask - bid` for the simulated book); a Binance record has
`spread = ask - bid` when both sides are positive and `spread = 0`
otherwise (so a failed bid/ask lookup gives spread 0, not 0.1% of price). -/
theorem C1_spread_amended :
    (∀ net now symbols r, r ∈ fetch_coinbase_data net now symbols →
      r.spread = r.ask - r.bid) ∧
    (∀ net now symbols r, r ∈ fetch_kraken_data net now symbols →
      r.spread = r.ask - r.bid) ∧
    (∀ net now symbols r, r ∈ fetch_coingecko_data net now symbols →
      r.spread = r.price * (1 / 1000) ∧ r.spread = r.ask - r.bid) ∧
    (∀ net now symbols r, r ∈ fetch_binance_data net now symbols →
      r.spread = if r.ask > 0 ∧ r.bid > 0 then r.ask - r.bid else 0) := by
  refine ⟨?_, ?_, ?_, ?_⟩
  · intro net now symbols r h
    rcases List.mem_filterMap.mp h with ⟨a, _, hf⟩
    exact coinbaseRecordFor_spec hf
  · intro net now symbols r h
    rcases List.mem_filterMap.mp h with ⟨a, _, hf⟩
    exact (krakenRecordFor_spec hf).2.2
  · intro net now symbols r h
    simp only [fetch_coingecko_data] at h
    by_cases hids : (symbols.filterMap coingecko_symbol_map).isEmpty
    · rw [if_pos hids] at h
      simp at h
    · rw [if_neg hids] at h
      rcases hnet : net (pyJoin "," (symbols.filterMap coingecko_symbol_map)) with e | data
      · simp only [hnet] at h
        simp at h
      · simp only [hnet] at h
        rcases List.mem_filterMap.mp h with ⟨a, _, hf⟩
        exact ⟨(geckoRecordFor_spec hf).2.2.1, (geckoRecordFor_spec hf).2.2.2⟩
  · intro net now symbols r
    induction symbols with
    | nil =>
      intro h
      simp [fetch_binance_data] at h
    | cons s rest ih =>
      intro h
      rw [fetch_binance_data] at h
      rcases hp : net.simplePrice s with _ | e | price
      · rw [hp] at h
        simp at h
      · rw [hp] at h
        exact ih h
      · rw [hp] at h
        rcases List.mem_cons.mp h with h1 | h2
        · subst h1
          rfl
        · exact ih h2

/-- The Coinbase network answer used to instantiate the C1 hypotheses. -/
def coinbaseNetW : String → Except String CoinbaseTicker :=
  fun _ => Except.ok { price := 10, volume := 1, bid := 4, ask := 5 }

/-- Witness for the amended C1 at a concrete Coinbase fetch. -/
theorem C1_spread_amended_witness :
    sampleRecord.spread = sampleRecord.ask - sampleRecord.bid :=
  C1_spread_amended.1 coinbaseNetW "2024-01-01T00:00:00Z" ["BTC"] sampleRecord
    (by rw [show fetch_coinbase_data coinbaseNetW "2024-01-01T00:00:00Z" ["BTC"] =
          [sampleRecord] from rfl]
        exact List.mem_singleton_self sampleRecord)

/-! ## C8: fetchers return records only for canonically mapped symbols -/

/-- C8: every Kraken or CoinGecko record's symbol lies in the canonical map
`{BTC, ETH, ADA, SOL}`, and symbols outside the map are silently skipped:
filtering them out of the input changes nothing (no record, no error). -/
theorem C8_unsupported_symbols_skipped :
    (∀ net now symbols r, r ∈ fetch_kraken_data net now symbols →
      r.symbol ∈ ["BTC", "ETH", "ADA", "SOL"]) ∧
    (∀ net now symbols r, r ∈ fetch_coingecko_data net now symbols →
      r.symbol ∈ ["BTC", "ETH", "ADA", "SOL"]) ∧
    (∀ net now symbols, fetch_kraken_data net now symbols =
      fetch_kraken_data net now
        (symbols.filter (fun s => (kraken_symbol_map s).isSome))) ∧
    (∀ net now symbols, fetch_coingecko_data net now symbols =
      fetch_coingecko_data net now
        (symbols.filter (fun s => (coingecko_symbol_map s).isSome))) := by
  refine ⟨?_, ?_, ?_, ?_⟩
  · intro net now symbols r h
    rcases List.mem_filterMap.mp h with ⟨a, _, hf⟩
    rcases krakenRecordFor_spec hf with ⟨hsym, hsome, _⟩
    rw [hsym]
    exact kraken_map_mem hsome
  · intro net now symbols r h
    simp only [fetch_coingecko_data] at h
    by_cases hids : (symbols.filterMap coingecko_symbol_map).isEmpty
    · rw [if_pos hids] at h
      simp at h
    · rw [if_neg hids] at h
      rcases hnet : net (pyJoin "," (symbols.filterMap coingecko_symbol_map)) with e | data
      · simp only [hnet] at h
        simp at h
      · simp only [hnet] at h
        rcases List.mem_filterMap.mp h with ⟨a, _, hf⟩
        rcases geckoRecordFor_spec hf with ⟨hsym, hsome, _⟩
        rw [hsym]
        exact gecko_map_mem hsome
  · intro net now symbols
    rw [fetch_kraken_data, fetch_kraken_data]
    exact filterMap_filter_isSome kraken_symbol_map _
      (fun a hm => krakenRecordFor_none hm) symbols
  · intro net now symbols
    simp only [fetch_coingecko_data]
    have hids : (symbols.filter (fun s => (coingecko_symbol_map s).isSome)).filterMap
        coingecko_symbol_map = symbols.filterMap coingecko_symbol_map :=
      (filterMap_filter_isSome coingecko_symbol_map coingecko_symbol_map
        (fun a hm => hm) symbols).symm
    rw [hids]
    by_cases he : (symbols.filterMap coingecko_symbol_map).isEmpty
    · rw [if_pos he, if_pos he]
    · rw [if_neg he, if_neg he]
      cases net (pyJoin "," (symbols.filterMap coingecko_symbol_map)) with
      | error e => rfl
      | ok data =>
        exact filterMap_filter_isSome coingecko_symbol_map (geckoRecordFor data now)
          (fun a hm => geckoRecordFor_none hm) symbols

/-- The Kraken network answer used to instantiate the C8 hypotheses. -/
def krakenNetW : String → Except String KrakenResp :=
  fun _ => Except.ok
    { err := []
      result := [("XXBTZUSD", { c := [10], v := [0, 5], b := [9], a := [11] })] }

/-- The record the C8 witness fetch produces. -/
def krakenRecW : PriceRecord :=
  { timestamp := "2024-01-01T00:00:00Z", symbol := "BTC", exchange := "kraken",
    price := 10, volume := 5, bid := 9, ask := 11, spread := (11 : ℚ) - 9,
    market_cap := 0 }

/-- Witness for C8 at a concrete Kraken fetch. -/
theorem C8_unsupported_symbols_skipped_witness :
    krakenRecW.symbol ∈ ["BTC", "ETH", "ADA", "SOL"] :=
  C8_unsupported_symbols_skipped.1 krakenNetW "2024-01-01T00:00:00Z" ["BTC"] krakenRecW
    (by rw [show fetch_kraken_data krakenNetW "2024-01-01T00:00:00Z" ["BTC"] =
          [krakenRecW] from rfl]
        exact List.mem_singleton_self krakenRecW)

end CryptoDemo
